import Mathlib

set_option maxRecDepth 8000

/- Shallow embedding of UFEDkml2map.py.  The extractor parse_kml is modelled
over an abstract well-formed KML document: a list of Placemark values, each
recording the text of the first name descendant (if any) and the text of the
first coordinates descendant (if any).  Python exceptions become constructors
of explicit error types; external collaborators (the plotly renderers and the
filesystem) are parameters. -/

/-- Python float values as produced by the builtin float on a string: a
finite rational value of the literal, an infinity, or a NaN. -/
inductive PyFloat where
  | finite (q : ℚ)
  | inf (neg : Bool)
  | nan
deriving DecidableEq

/-- Numeric value of a digit string, most significant digit first. -/
def digitsVal (l : List Char) : Nat :=
  l.foldl (fun a c => 10 * a + (c.toNat - 48)) 0

/-- Python str.strip with no argument: drop whitespace from both ends. -/
def pyStrip (l : List Char) : List Char :=
  ((l.dropWhile Char.isWhitespace).reverse.dropWhile Char.isWhitespace).reverse

/-- Mantissa of a float literal: digits, optionally a dot and more digits.
Returns the digit value, the number of fractional digits and the unconsumed
remainder; fails when no digit is present before the exponent part. -/
def parseMantissa (l : List Char) : Option (Nat × Nat × List Char) :=
  match l.span Char.isDigit with
  | (ip, rest) =>
    match rest with
    | '.' :: r2 =>
      match r2.span Char.isDigit with
      | (fp, r3) =>
        if ip.isEmpty && fp.isEmpty then none
        else some (digitsVal (ip ++ fp), fp.length, r3)
    | _ => if ip.isEmpty then none else some (digitsVal ip, 0, rest)

/-- Exact rational value of a decimal literal with digit value n, scale
fractional digits, exponent e and an optional leading minus sign. -/
def decLitVal (neg : Bool) (n scale : Nat) (e : Int) : ℚ :=
  let num : Int := if neg then -(n : Int) else (n : Int)
  let e2 : Int := e - (scale : Int)
  if 0 ≤ e2 then Rat.divInt (num * ((10 ^ e2.toNat : Nat) : Int)) 1
  else Rat.divInt num ((10 ^ (-e2).toNat : Nat) : Int)

/-- Digits of an exponent, after an optional sign has been removed. -/
def parseExpDigits (r : List Char) : Option Int :=
  if r.isEmpty then none
  else if r.all Char.isDigit then some (digitsVal r : Int) else none

/-- Exponent of a float literal: an optional sign followed by digits. -/
def parseExp : List Char → Option Int
  | '+' :: r => parseExpDigits r
  | '-' :: r => (parseExpDigits r).map (fun n => -n)
  | r => parseExpDigits r

/-- Body of a float literal once the leading sign has been removed:
inf, infinity and nan (case insensitive), or a mantissa with an optional
exponent.  The whole input must be consumed. -/
def pyFloatNoSign (l : List Char) (neg : Bool) : Option PyFloat :=
  let low := l.map Char.toLower
  if low = "inf".data ∨ low = "infinity".data then some (PyFloat.inf neg)
  else if low = "nan".data then some PyFloat.nan
  else
    match parseMantissa l with
    | none => none
    | some (n, scale, rest) =>
      match rest with
      | [] => some (PyFloat.finite (decLitVal neg n scale 0))
      | 'e' :: r => (parseExp r).map (fun e => PyFloat.finite (decLitVal neg n scale e))
      | 'E' :: r => (parseExp r).map (fun e => PyFloat.finite (decLitVal neg n scale e))
      | _ => none

/-- Python float applied to a string: strip whitespace, read an optional
sign, then the body of the literal.  Returns none when the builtin would
raise ValueError. -/
def pyFloat (s : List Char) : Option PyFloat :=
  match pyStrip s with
  | '+' :: r => pyFloatNoSign r false
  | '-' :: r => pyFloatNoSign r true
  | l => pyFloatNoSign l false

/-- Python str.split with separator a comma: the list of chunks between
commas; the empty string yields one empty chunk, so the result is never
empty. -/
def splitOnComma : List Char → List (List Char)
  | [] => [[]]
  | c :: rest =>
    if c = ',' then [] :: splitOnComma rest
    else
      match splitOnComma rest with
      | [] => [[c]]
      | h :: t => (c :: h) :: t

/-- One Placemark element of a well-formed KML document.  The name field is
none when the element has no name descendant, and some t when the first name
descendant has text t (Python text may itself be None).  Likewise for the
coordinates descendant. -/
structure Placemark where
  name : Option (Option String)
  coordinates : Option (Option String)
deriving DecidableEq

/-- One extracted row: the dict appended to data in parse_kml. -/
structure LocationRecord where
  name : Option String
  longitude : PyFloat
  latitude : PyFloat
deriving DecidableEq

/-- Errors that abort parse_kml on a placemark.  attributeError models the
AttributeError raised when a name or coordinates descendant is missing or the
coordinates text is None (caught and re-raised as ValueError by parse_kml);
notEnoughValues and tooManyValues model the ValueError raised by the tuple
unpacking when the comma split has fewer than 2 or more than 3 parts;
floatError models the ValueError raised by float on the offending token.
None of these carries the ordinal of the placemark. -/
inductive ExtractErr where
  | attributeError
  | notEnoughValues (got : Nat)
  | tooManyValues
  | floatError (token : List Char)
deriving DecidableEq

/-- Conversion of the longitude and latitude tokens in parse_kml: the dict
literal evaluates float lon first, then float lat. -/
def parseLonLat (nm : Option String) (lon lat : List Char) :
    Except ExtractErr LocationRecord :=
  match pyFloat lon with
  | none => Except.error (ExtractErr.floatError lon)
  | some x =>
    match pyFloat lat with
    | none => Except.error (ExtractErr.floatError lat)
    | some y => Except.ok ⟨nm, x, y⟩

/-- Body of the parse_kml loop for one placemark: read the name text, read
and strip the coordinates text, split on commas, unpack 3 or else 2 parts,
and convert the first two parts with float. -/
def parsePlacemark (p : Placemark) : Except ExtractErr LocationRecord :=
  match p.name with
  | none => Except.error ExtractErr.attributeError
  | some nm =>
    match p.coordinates with
    | none => Except.error ExtractErr.attributeError
    | some none => Except.error ExtractErr.attributeError
    | some (some c) =>
      match splitOnComma (pyStrip c.data) with
      | [lon, lat] => parseLonLat nm lon lat
      | [lon, lat, _] => parseLonLat nm lon lat
      | parts =>
        if parts.length < 2 then Except.error (ExtractErr.notEnoughValues parts.length)
        else Except.error ExtractErr.tooManyValues

/-- parse_kml over a well-formed document: fold the placemarks in document
order, appending one record per placemark, aborting on the first error.  The
resulting list models the rows of the returned DataFrame. -/
def parse_kml : List Placemark → Except ExtractErr (List LocationRecord)
  | [] => Except.ok []
  | p :: rest =>
    match parsePlacemark p with
    | Except.error e => Except.error e
    | Except.ok r =>
      match parse_kml rest with
      | Except.error e => Except.error e
      | Except.ok rs => Except.ok (r :: rs)

deriving instance DecidableEq for Except

/-- One-based ordinal, in document order, of the first placemark whose
processing raises; none when every placemark parses. -/
def failPos : List Placemark → Option Nat
  | [] => none
  | p :: rest =>
    match parsePlacemark p with
    | Except.error _ => some 1
    | Except.ok _ => (failPos rest).map (fun n => n + 1)

/-- Python dict.get with a default, over an association list whose keys are
distinct, as in choose_plot_type. -/
def dictGet (d : List (String × String)) (k : String) (dflt : String) : String :=
  match d with
  | [] => dflt
  | (k2, v) :: rest => if k = k2 then v else dictGet rest k dflt

/-- The plot_types dict of choose_plot_type, in insertion order. -/
def plot_types_dict : List (String × String) :=
  [("1", "Scatter Plot"), ("2", "Density Plot"), ("3", "Lines Plot"), ("A", "All")]

/-- choose_plot_type as a function of the string read from the user:
plot_types.get(choice, default Scatter Plot). -/
def choose_plot_type (choice : String) : String :=
  dictGet plot_types_dict choice "Scatter Plot"

/-- Python str.endswith: the second string is a suffix of the first. -/
def endswith (s suf : String) : Bool :=
  s.data.reverse.take suf.data.length == suf.data.reverse

/-- get_kml_filename as a function of the string read from the user: empty
input defaults to Locations.kml, input without the .kml suffix has it
appended, and input ending in .kml is kept. -/
def get_kml_filename (s : String) : String :=
  if s = "" then "Locations.kml"
  else if endswith s ".kml" then s
  else s ++ ".kml"

/-- Errors raised by validate_kml_file: FileNotFoundError when the path does
not name a file, ValueError when the name does not end in .kml. -/
inductive ValidateErr where
  | fileNotFound (file : String)
  | notKmlFile (file : String)
deriving DecidableEq

/-- validate_kml_file with the filesystem passed in as the predicate isfile
modelling os.path.isfile. -/
def validate_kml_file (isfile : String → Bool) (kml_file : String) :
    Except ValidateErr String :=
  if isfile kml_file = false then Except.error (ValidateErr.fileNotFound kml_file)
  else if endswith kml_file ".kml" = false then Except.error (ValidateErr.notKmlFile kml_file)
  else Except.ok kml_file

/-- Opaque handle to a rendered plotly figure. -/
structure Fig where
  figId : Nat
deriving DecidableEq

/-- External plotly express module: each renderer takes the DataFrame rows
and returns a figure or raises, modelled as Except with the message of the
raised exception. -/
structure PxModule where
  scatter_mapbox : List LocationRecord → Except String Fig
  density_mapbox : List LocationRecord → Except String Fig
  line_geo : List LocationRecord → Except String Fig

/-- create_map: dispatch on the plot type string to the matching renderer,
raising ValueError on an unknown plot type. -/
def create_map (px : PxModule) (df : List LocationRecord) (plot_type : String) :
    Except String Fig :=
  if plot_type = "Scatter Plot" then px.scatter_mapbox df
  else if plot_type = "Density Plot" then px.density_mapbox df
  else if plot_type = "Lines Plot" then px.line_geo df
  else Except.error ("Unknown plot type: " ++ plot_type)

/-- The plot_types list of export_all_plots. -/
def plot_types : List String := ["Scatter Plot", "Density Plot", "Lines Plot"]

/-- Python str.lower. -/
def pyLower (s : String) : String := String.mk (s.data.map Char.toLower)

/-- Python str.replace of every space by an underscore. -/
def pyReplaceSpace (s : String) : String :=
  String.mk (s.data.map (fun c => if c = ' ' then '_' else c))

/-- File-name stem of a plot type, plot_type.lower().replace of spaces. -/
def plot_name_of (pt : String) : String := pyReplaceSpace (pyLower pt)

/-- Observable outcome of one rendering task in export_all_plots: the figure
was exported under its plot name, or the error was logged for that plot name
without affecting the other tasks. -/
inductive ExportOutcome where
  | saved (plotName : String) (fig : Fig)
  | errorLogged (plotName : String) (msg : String)
deriving DecidableEq

/-- Plot name carried by an outcome. -/
def outcomeName : ExportOutcome → String
  | ExportOutcome.saved n _ => n
  | ExportOutcome.errorLogged n _ => n

/-- One rendering task of export_all_plots: run create_map for the plot type
and either export the figure or log the error. -/
def exportOne (px : PxModule) (df : List LocationRecord) (pt : String) :
    ExportOutcome :=
  match create_map px df pt with
  | Except.ok fig => ExportOutcome.saved (plot_name_of pt) fig
  | Except.error e => ExportOutcome.errorLogged (plot_name_of pt) e

/-- export_all_plots: submit one rendering task per plot type and collect one
outcome per task; per-kind outcomes listed here in submission order. -/
def export_all_plots (px : PxModule) (df : List LocationRecord) :
    List ExportOutcome :=
  plot_types.map (exportOne px df)

/-- Renderer used by the i-th submitted task of export_all_plots, applied to
the DataFrame rows. -/
def componentFor (i : Fin 3) (px : PxModule) (df : List LocationRecord) :
    Except String Fig :=
  match i with
  | ⟨0, _⟩ => px.scatter_mapbox df
  | ⟨1, _⟩ => px.density_mapbox df
  | ⟨2, _⟩ => px.line_geo df

/-- A placemark of the required shape: a name descendant, a coordinates
descendant with non-null text, and a comma split of 2 or 3 parts each of
which the float builtin accepts. -/
def validPm (p : Placemark) : Prop :=
  p.name.isSome = true ∧
  ∃ c, p.coordinates = some (some c) ∧
    ((splitOnComma (pyStrip c.data)).length = 2 ∨
     (splitOnComma (pyStrip c.data)).length = 3) ∧
    ∀ t ∈ splitOnComma (pyStrip c.data), (pyFloat t).isSome = true

theorem parse_kml_error_of_mem (doc : List Placemark) (p : Placemark)
    (hp : p ∈ doc) (e : ExtractErr) (he : parsePlacemark p = Except.error e) :
    ∃ e2, parse_kml doc = Except.error e2 := by
  induction doc with
  | nil => cases hp
  | cons q rest ih =>
    cases hq : parsePlacemark q with
    | error e3 => exact ⟨e3, by simp [parse_kml, hq]⟩
    | ok r =>
      rcases List.mem_cons.mp hp with h | h
      · subst h; simp [hq] at he
      · obtain ⟨e2, h2⟩ := ih h
        exact ⟨e2, by simp [parse_kml, hq, h2]⟩

theorem parse_kml_append_error (pre rest : List Placemark) (p : Placemark)
    (hok : ∀ q ∈ pre, ∃ r, parsePlacemark q = Except.ok r)
    (e : ExtractErr) (he : parsePlacemark p = Except.error e) :
    parse_kml (pre ++ p :: rest) = Except.error e := by
  induction pre with
  | nil => simp [parse_kml, he]
  | cons q pre2 ih =>
    obtain ⟨r, hr⟩ := hok q (List.mem_cons_self q pre2)
    have ih2 := ih (fun q2 hq2 => hok q2 (List.mem_cons_of_mem q hq2))
    simp [parse_kml, hr, ih2]

theorem parseLonLat_error_token (nm : Option String) (a b : List Char)
    (hbad : pyFloat a = none ∨ pyFloat b = none) :
    ∃ t, parseLonLat nm a b = Except.error (ExtractErr.floatError t) ∧
      (t = a ∨ t = b) ∧ pyFloat t = none := by
  cases hfa : pyFloat a with
  | none => exact ⟨a, by simp [parseLonLat, hfa], Or.inl rfl, hfa⟩
  | some x =>
    cases hfb : pyFloat b with
    | none => exact ⟨b, by simp [parseLonLat, hfa, hfb], Or.inr rfl, hfb⟩
    | some y => rcases hbad with h | h <;> simp_all

theorem parsePlacemark_error_badArity (p : Placemark) (c : String)
    (hc : p.coordinates = some (some c))
    (h2 : (splitOnComma (pyStrip c.data)).length ≠ 2)
    (h3 : (splitOnComma (pyStrip c.data)).length ≠ 3) :
    ∃ e, parsePlacemark p = Except.error e := by
  cases hn : p.name with
  | none => exact ⟨ExtractErr.attributeError, by simp [parsePlacemark, hn]⟩
  | some nm =>
    rcases hparts : splitOnComma (pyStrip c.data) with _ | ⟨a, _ | ⟨b, _ | ⟨d, tl⟩⟩⟩
    · exact ⟨ExtractErr.notEnoughValues 0, by simp [parsePlacemark, hn, hc, hparts]⟩
    · exact ⟨ExtractErr.notEnoughValues 1, by simp [parsePlacemark, hn, hc, hparts]⟩
    · exact absurd (by rw [hparts]; rfl) h2
    · rcases tl with _ | ⟨e4, tl2⟩
      · exact absurd (by rw [hparts]; rfl) h3
      · exact ⟨ExtractErr.tooManyValues, by simp [parsePlacemark, hn, hc, hparts]⟩

theorem parsePlacemark_error_badFloat (p : Placemark) (c : String) (a b : List Char)
    (hc : p.coordinates = some (some c))
    (hparts : splitOnComma (pyStrip c.data) = [a, b] ∨
      ∃ d, splitOnComma (pyStrip c.data) = [a, b, d])
    (hbad : pyFloat a = none ∨ pyFloat b = none) :
    ∃ e, parsePlacemark p = Except.error e := by
  cases hn : p.name with
  | none => exact ⟨ExtractErr.attributeError, by simp [parsePlacemark, hn]⟩
  | some nm =>
    obtain ⟨t, ht, _, _⟩ := parseLonLat_error_token nm a b hbad
    rcases hparts with h | ⟨d, h⟩ <;>
      exact ⟨ExtractErr.floatError t, by simp [parsePlacemark, hn, hc, h, ht]⟩

theorem parsePlacemark_ok_of_valid (p : Placemark) (h : validPm p) :
    ∃ r, parsePlacemark p = Except.ok r := by
  obtain ⟨hn, c, hc, hlen, hnum⟩ := h
  cases hname : p.name with
  | none => simp [hname] at hn
  | some nm =>
    rcases hlen with h2 | h3
    · obtain ⟨a, b, hab⟩ := List.length_eq_two.mp h2
      obtain ⟨x, hx⟩ := Option.isSome_iff_exists.mp (hnum a (by rw [hab]; simp))
      obtain ⟨y, hy⟩ := Option.isSome_iff_exists.mp (hnum b (by rw [hab]; simp))
      exact ⟨⟨nm, x, y⟩, by simp [parsePlacemark, hname, hc, hab, parseLonLat, hx, hy]⟩
    · obtain ⟨a, b, d, hab⟩ := List.length_eq_three.mp h3
      obtain ⟨x, hx⟩ := Option.isSome_iff_exists.mp (hnum a (by rw [hab]; simp))
      obtain ⟨y, hy⟩ := Option.isSome_iff_exists.mp (hnum b (by rw [hab]; simp))
      exact ⟨⟨nm, x, y⟩, by simp [parsePlacemark, hname, hc, hab, parseLonLat, hx, hy]⟩

theorem endswith_append (s t : String) : endswith (s ++ t) t = true := by
  unfold endswith
  rw [String.data_append, List.reverse_append, ← List.length_reverse, List.take_left]
  simp

/-- C1: for every well-formed document whose placemarks each have a name
child, a coordinates child, and a coordinate string splitting on commas into
exactly 2 or 3 parts that the float builtin accepts, parse_kml succeeds and
returns exactly one LocationRecord per placemark, in document order. -/
theorem C1_extract_returns_all_records (doc : List Placemark)
    (h : ∀ p ∈ doc, validPm p) :
    ∃ rs, parse_kml doc = Except.ok rs ∧ rs.length = doc.length ∧
      ∀ (i : Nat) (hi : i < doc.length) (hr : i < rs.length),
        parsePlacemark (doc.get ⟨i, hi⟩) = Except.ok (rs.get ⟨i, hr⟩) := by
  induction doc with
  | nil => exact ⟨[], rfl, rfl, fun i hi _ => absurd hi (by simp)⟩
  | cons p rest ih =>
    obtain ⟨r, hrr⟩ := parsePlacemark_ok_of_valid p (h p (List.mem_cons_self p rest))
    obtain ⟨rs, h1, h2, h3⟩ := ih (fun q hq => h q (List.mem_cons_of_mem p hq))
    refine ⟨r :: rs, ?_, ?_, ?_⟩
    · simp [parse_kml, hrr, h1]
    · simp [h2]
    · intro i hi hr
      cases i with
      | zero => simpa using hrr
      | succ n =>
        have hi2 : n < rest.length := by simpa using hi
        have hr2 : n < rs.length := by simpa using hr
        simpa using h3 n hi2 hr2

/-- Concrete document for the C1 witness. -/
def docW1 : List Placemark := [⟨some (some "A"), some (some "10.0,20.0")⟩]

/-- C1 witness: the theorem applied to a one-placemark document. -/
theorem C1_extract_returns_all_records_witness :
    (∀ p ∈ docW1, validPm p) ∧
    (∃ rs, parse_kml docW1 = Except.ok rs ∧ rs.length = docW1.length ∧
      ∀ (i : Nat) (hi : i < docW1.length) (hr : i < rs.length),
        parsePlacemark (docW1.get ⟨i, hi⟩) = Except.ok (rs.get ⟨i, hr⟩)) := by
  have hval : ∀ p ∈ docW1, validPm p := by
    intro p hp
    have hpeq : p = ⟨some (some "A"), some (some "10.0,20.0")⟩ := by
      simpa [docW1] using hp
    subst hpeq
    exact ⟨rfl, "10.0,20.0", rfl, by decide, by decide⟩
  exact ⟨hval, C1_extract_returns_all_records docW1 hval⟩

/-- C2: export_all_plots submits one rendering task per plot kind and yields
exactly one outcome per kind, in submission order; the outcome of each task
is a function of the renderer of that task alone, so a failing renderer in one
kind can neither change nor suppress the outcomes of the other two. -/
theorem C2_export_all_plots_isolated (px px2 : PxModule)
    (df : List LocationRecord) (i : Fin 3)
    (h : componentFor i px2 df = componentFor i px df) :
    (export_all_plots px df).length = 3 ∧
    (export_all_plots px df).map outcomeName =
      ["scatter_plot", "density_plot", "lines_plot"] ∧
    (export_all_plots px2 df)[i.val]? = (export_all_plots px df)[i.val]? := by
  have hname : ∀ (q : PxModule) (pt : String),
      outcomeName (exportOne q df pt) = plot_name_of pt := by
    intro q pt
    cases hcm : create_map q df pt <;> simp [exportOne, hcm, outcomeName]
  refine ⟨?_, ?_, ?_⟩
  · simp [export_all_plots, plot_types]
  · simp only [export_all_plots, plot_types, List.map_cons, List.map_nil, hname]
    decide
  · obtain ⟨iv, hiv⟩ := i
    interval_cases iv
    · simp only [componentFor] at h
      simp [export_all_plots, plot_types, exportOne, create_map, h]
    · simp only [componentFor] at h
      simp [export_all_plots, plot_types, exportOne, create_map, h]
    · simp only [componentFor] at h
      simp [export_all_plots, plot_types, exportOne, create_map, h]

/-- Renderer assignment with every kind succeeding, for the C2 witness. -/
def pxA : PxModule :=
  ⟨fun _ => Except.ok ⟨1⟩, fun _ => Except.ok ⟨2⟩, fun _ => Except.ok ⟨3⟩⟩

/-- Renderer assignment where scatter and lines raise, for the C2 witness. -/
def pxB : PxModule :=
  ⟨fun _ => Except.error "boom", fun _ => Except.ok ⟨2⟩, fun _ => Except.error "boom"⟩

/-- C2 witness: the theorem applied with the density renderer shared and the
two sibling renderers replaced by failing ones. -/
theorem C2_export_all_plots_isolated_witness :
    componentFor 1 pxB [] = componentFor 1 pxA [] ∧
    ((export_all_plots pxA []).length = 3 ∧
     (export_all_plots pxA []).map outcomeName =
       ["scatter_plot", "density_plot", "lines_plot"] ∧
     (export_all_plots pxB [])[(1 : Fin 3).val]? =
       (export_all_plots pxA [])[(1 : Fin 3).val]?) :=
  ⟨rfl, C2_export_all_plots_isolated pxA pxB [] 1 rfl⟩

/-- C4: a placemark whose coordinate string splits on commas into a number
of parts other than 2 or 3 makes parse_kml fail with an error: the whole
extraction aborts and no record list at all is returned, including the
records of the placemarks preceding the malformed one. -/
theorem C4_bad_arity_aborts (doc : List Placemark) (p : Placemark)
    (hp : p ∈ doc) (c : String)
    (hc : p.coordinates = some (some c))
    (h2 : (splitOnComma (pyStrip c.data)).length ≠ 2)
    (h3 : (splitOnComma (pyStrip c.data)).length ≠ 3) :
    ∃ e, parse_kml doc = Except.error e := by
  obtain ⟨e, he⟩ := parsePlacemark_error_badArity p c hc h2 h3
  exact parse_kml_error_of_mem doc p hp e he

/-- Malformed placemark for the C4 witness: a 1-part coordinate string. -/
def pmW4 : Placemark := ⟨some (some "B"), some (some "10.0")⟩

/-- Document for the C4 witness: a good placemark followed by pmW4. -/
def docW4 : List Placemark := [⟨some (some "A"), some (some "1.0,2.0")⟩, pmW4]

/-- C4 witness: the theorem applied to a document whose second placemark has
a 1-part coordinate string. -/
theorem C4_bad_arity_aborts_witness :
    pmW4 ∈ docW4 ∧
    (splitOnComma (pyStrip "10.0".data)).length ≠ 2 ∧
    (splitOnComma (pyStrip "10.0".data)).length ≠ 3 ∧
    (∃ e, parse_kml docW4 = Except.error e) :=
  ⟨by decide, by decide, by decide,
   C4_bad_arity_aborts docW4 pmW4 (by decide) "10.0" rfl (by decide) (by decide)⟩

/-- C5: when the stripped coordinate string splits into exactly 2 parts the
record takes longitude from part 1 and latitude from part 2; with exactly 3
parts the first two parts are used the same way and the third, altitude,
part is ignored entirely. -/
theorem C5_coordinate_parts_routed (nt : Option String) (c : String)
    (a b : List Char) (x y : PyFloat)
    (hparts : splitOnComma (pyStrip c.data) = [a, b] ∨
      ∃ d, splitOnComma (pyStrip c.data) = [a, b, d])
    (hx : pyFloat a = some x) (hy : pyFloat b = some y) :
    parsePlacemark ⟨some nt, some (some c)⟩ =
      Except.ok ⟨nt, x, y⟩ := by
  rcases hparts with h | ⟨d, h⟩ <;> simp [parsePlacemark, h, parseLonLat, hx, hy]

/-- C5 witness: the theorem applied to the 3-part coordinate string of the
worked example, whose altitude part 100 is dropped. -/
theorem C5_coordinate_parts_routed_witness :
    (splitOnComma (pyStrip "-5.5,30.1,100".data) = ["-5.5".data, "30.1".data] ∨
      ∃ d, splitOnComma (pyStrip "-5.5,30.1,100".data) = ["-5.5".data, "30.1".data, d]) ∧
    pyFloat "-5.5".data = some (PyFloat.finite (Rat.divInt (-11) 2)) ∧
    pyFloat "30.1".data = some (PyFloat.finite (Rat.divInt 301 10)) ∧
    parsePlacemark ⟨some (some "B"), some (some "-5.5,30.1,100")⟩ =
      Except.ok ⟨some "B", PyFloat.finite (Rat.divInt (-11) 2),
        PyFloat.finite (Rat.divInt 301 10)⟩ :=
  ⟨Or.inr ⟨"100".data, by decide⟩, by decide, by decide,
   C5_coordinate_parts_routed (some "B") "-5.5,30.1,100" "-5.5".data "30.1".data
     _ _ (Or.inr ⟨"100".data, by decide⟩) (by decide) (by decide)⟩

/-- Document for the C6 counterexample whose first placemark has the
non-numeric longitude token abc. -/
def docC6a : List Placemark := [⟨some (some "X"), some (some "abc,1")⟩]

/-- Document for the C6 counterexample whose second placemark has the same
non-numeric longitude token abc, after one good placemark. -/
def docC6b : List Placemark :=
  [⟨some (some "Y"), some (some "1,2")⟩, ⟨some (some "X"), some (some "abc,1")⟩]

/-- C6 counterexample: two documents whose failing placemarks sit at the
distinct 1-based ordinals 1 and 2 produce the very same error value, so no
reading of the error can recover the ordinal of the offending placemark; the
error parse_kml propagates does not identify the placemark by position. -/
theorem C6_counterexample_error_lacks_position :
    parse_kml docC6a = Except.error (ExtractErr.floatError "abc".data) ∧
    parse_kml docC6b = Except.error (ExtractErr.floatError "abc".data) ∧
    failPos docC6a = some 1 ∧
    failPos docC6b = some 2 ∧
    ¬ ∃ pos : ExtractErr → Nat,
        ∀ (d : List Placemark) (t : List Char),
          parse_kml d = Except.error (ExtractErr.floatError t) →
          failPos d = some (pos (ExtractErr.floatError t)) := by
  refine ⟨by decide, by decide, by decide, by decide, ?_⟩
  rintro ⟨pos, hpos⟩
  have h1 := hpos docC6a "abc".data (by decide)
  have h2 := hpos docC6b "abc".data (by decide)
  rw [show failPos docC6a = some 1 from by decide] at h1
  rw [show failPos docC6b = some 2 from by decide] at h2
  rw [← h1] at h2
  exact absurd h2 (by decide)

/-- C6 amended: when a longitude or latitude token of a placemark fails to
parse as a float, the error aborts the whole extraction and is propagated
verbatim from that placemark; it identifies the offending token, but carries
no positional information about the placemark. -/
theorem C6_amended_error_carries_token (pre rest : List Placemark)
    (nt : Option String) (c : String) (a b : List Char)
    (hok : ∀ q ∈ pre, ∃ r, parsePlacemark q = Except.ok r)
    (hparts : splitOnComma (pyStrip c.data) = [a, b] ∨
      ∃ d, splitOnComma (pyStrip c.data) = [a, b, d])
    (hbad : pyFloat a = none ∨ pyFloat b = none) :
    ∃ t, parse_kml (pre ++ (⟨some nt, some (some c)⟩ : Placemark) :: rest) =
        Except.error (ExtractErr.floatError t) ∧
      (t = a ∨ t = b) ∧ pyFloat t = none := by
  obtain ⟨t, ht, hab, hnone⟩ := parseLonLat_error_token nt a b hbad
  have hpm : parsePlacemark ⟨some nt, some (some c)⟩ =
      Except.error (ExtractErr.floatError t) := by
    rcases hparts with h | ⟨d, h⟩ <;> simp [parsePlacemark, h, ht]
  exact ⟨t, parse_kml_append_error pre rest _ hok _ hpm, hab, hnone⟩

/-- C6 amended witness: the theorem applied with one good placemark before
the offending one. -/
theorem C6_amended_error_carries_token_witness :
    (∀ q ∈ [(⟨some (some "Y"), some (some "1,2")⟩ : Placemark)],
      ∃ r, parsePlacemark q = Except.ok r) ∧
    (splitOnComma (pyStrip "abc,1".data) = ["abc".data, "1".data] ∨
      ∃ d, splitOnComma (pyStrip "abc,1".data) = ["abc".data, "1".data, d]) ∧
    (pyFloat "abc".data = none ∨ pyFloat "1".data = none) ∧
    (∃ t, parse_kml ([(⟨some (some "Y"), some (some "1,2")⟩ : Placemark)] ++
        (⟨some (some "X"), some (some "abc,1")⟩ : Placemark) :: []) =
        Except.error (ExtractErr.floatError t) ∧
      (t = "abc".data ∨ t = "1".data) ∧ pyFloat t = none) := by
  have hok : ∀ q ∈ [(⟨some (some "Y"), some (some "1,2")⟩ : Placemark)],
      ∃ r, parsePlacemark q = Except.ok r := by
    intro q hq
    have hqe : q = ⟨some (some "Y"), some (some "1,2")⟩ := by simpa using hq
    subst hqe
    exact ⟨⟨some "Y", PyFloat.finite 1, PyFloat.finite 2⟩, by decide⟩
  refine ⟨hok, Or.inl (by decide), Or.inl (by decide), ?_⟩
  exact C6_amended_error_carries_token [⟨some (some "Y"), some (some "1,2")⟩] []
    (some "X") "abc,1" "abc".data "1".data hok (Or.inl (by decide))
    (Or.inl (by decide))

/-- C7 counterexample: the claim quantifies over every token of the
coordinate split, but a non-numeric third, altitude, token is never passed
to float; on this document the token xyz does not parse as a float yet
extraction succeeds with a record instead of failing. -/
theorem C7_counterexample_altitude_ignored :
    pyFloat "xyz".data = none ∧
    "xyz".data ∈ splitOnComma (pyStrip "1.0,2.0,xyz".data) ∧
    parse_kml [⟨some (some "A"), some (some "1.0,2.0,xyz")⟩] =
      Except.ok [⟨some "A", PyFloat.finite 1, PyFloat.finite 2⟩] := by
  refine ⟨by decide, by decide, by decide⟩

/-- C7 amended: a placemark whose longitude or latitude token, the first two
parts of a 2-part or 3-part split, does not parse as a float makes the whole
extraction fail with an error rather than dropping the record or returning a
partial record set; only a non-numeric altitude token is ignored. -/
theorem C7_amended_lonlat_nonnumeric_aborts (doc : List Placemark)
    (p : Placemark) (hp : p ∈ doc) (c : String) (a b : List Char)
    (hc : p.coordinates = some (some c))
    (hparts : splitOnComma (pyStrip c.data) = [a, b] ∨
      ∃ d, splitOnComma (pyStrip c.data) = [a, b, d])
    (hbad : pyFloat a = none ∨ pyFloat b = none) :
    ∃ e, parse_kml doc = Except.error e := by
  obtain ⟨e, he⟩ := parsePlacemark_error_badFloat p c a b hc hparts hbad
  exact parse_kml_error_of_mem doc p hp e he

/-- Offending placemark for the C7 amended witness. -/
def pmW7 : Placemark := ⟨some (some "X"), some (some "1.0,zzz")⟩

/-- Document for the C7 amended witness. -/
def docW7 : List Placemark := [pmW7]

/-- C7 amended witness: the theorem applied to a placemark whose latitude
token does not parse. -/
theorem C7_amended_lonlat_nonnumeric_aborts_witness :
    pmW7 ∈ docW7 ∧
    pmW7.coordinates = some (some "1.0,zzz") ∧
    (splitOnComma (pyStrip "1.0,zzz".data) = ["1.0".data, "zzz".data] ∨
      ∃ d, splitOnComma (pyStrip "1.0,zzz".data) = ["1.0".data, "zzz".data, d]) ∧
    (pyFloat "1.0".data = none ∨ pyFloat "zzz".data = none) ∧
    (∃ e, parse_kml docW7 = Except.error e) :=
  ⟨by decide, rfl, Or.inl (by decide), Or.inr (by decide),
   C7_amended_lonlat_nonnumeric_aborts docW7 pmW7 (by decide) "1.0,zzz"
     "1.0".data "zzz".data rfl (Or.inl (by decide)) (Or.inr (by decide))⟩

/-- C8: extraction of a well-formed document with zero placemarks succeeds
and returns the empty record set rather than raising. -/
theorem C8_empty_doc_ok : parse_kml ([] : List Placemark) = Except.ok [] := rfl

/-- C9: choose_plot_type returns Scatter Plot for every input string other
than the four dict keys 1, 2, 3 and A; in particular the empty string, the
lowercase a and every other string select Scatter Plot, never All. -/
theorem C9_default_scatter (s : String)
    (h1 : s ≠ "1") (h2 : s ≠ "2") (h3 : s ≠ "3") (h4 : s ≠ "A") :
    choose_plot_type s = "Scatter Plot" := by
  simp [choose_plot_type, plot_types_dict, dictGet, h1, h2, h3, h4]

/-- C9 witness: the theorem applied to the lowercase input a. -/
theorem C9_default_scatter_witness :
    "a" ≠ "1" ∧ "a" ≠ "2" ∧ "a" ≠ "3" ∧ "a" ≠ "A" ∧
    choose_plot_type "a" = "Scatter Plot" :=
  ⟨by decide, by decide, by decide, by decide,
   C9_default_scatter "a" (by decide) (by decide) (by decide) (by decide)⟩

/-- C10: every result of get_kml_filename ends in .kml, so validate_kml_file
applied to such a result never reaches its not-a-KML-file ValueError branch:
it either accepts the name or fails with FileNotFoundError. -/
theorem C10_kml_filename_always_kml (s : String) (isfile : String → Bool) :
    endswith (get_kml_filename s) ".kml" = true ∧
    (validate_kml_file isfile (get_kml_filename s) =
        Except.ok (get_kml_filename s) ∨
     validate_kml_file isfile (get_kml_filename s) =
        Except.error (ValidateErr.fileNotFound (get_kml_filename s))) := by
  have hend : endswith (get_kml_filename s) ".kml" = true := by
    unfold get_kml_filename
    split
    · decide
    · split
      · next h => exact h
      · exact endswith_append s ".kml"
  refine ⟨hend, ?_⟩
  cases hf : isfile (get_kml_filename s)
  · right; simp [validate_kml_file, hf]
  · left; simp [validate_kml_file, hf, hend]
